import Mathlib

/-!
Shallow embedding of the viewport/cursor/event-dispatch core of the `micro`
text editor (src/cmd/micro/view.go), together with theorems settling the
frozen claims about it.

Go `int` values are modelled as `Int` (no overflow is relevant at the
magnitudes involved); Go's truncating integer division is `Int.tdiv`.
Code that lives in repository files not present under src/ (cursor.go,
buffer.go, eventhandler.go, the global settings) is modelled from the
spec; every such definition carries a doc comment starting with
"Modelled from the spec:".
-/

set_option linter.unusedVariables false

namespace Micro

/-- Modelled from the spec: the `tabsize` option (settings are not under
src/); default value 4. -/
def tabSize : Nat := 4

/-- The buffer: an ordered sequence of lines (from the Buffer struct of
buffer.go, reconstructed from its uses `v.buf.lines` in view.go). -/
structure Buffer where
  lines : List String
  deriving Repr, DecidableEq

/-- The cursor: position `(x, y)`, the remembered visual column, and the
selection `curSelection` (a two-element int array in Go), as used by
view.go. -/
structure Cursor where
  x : Int
  y : Int
  lastVisualX : Int
  curSelection : Int × Int
  deriving Repr, DecidableEq

/-- The View struct of view.go (the fields the claims touch; the
statusline, syntax matches and event-handler pointer are omitted as no
claim reads them). -/
structure View where
  cursor : Cursor
  topline : Int
  leftCol : Int
  widthPercent : Int
  heightPercent : Int
  width : Int
  height : Int
  lineNumOffset : Int
  buf : Buffer
  mouseReleased : Bool
  lastClickTime : Int
  doubleClick : Bool
  tripleClick : Bool
  updateLines : Int × Int
  deriving Repr, DecidableEq

/-- Go `len(v.buf.lines)` as an `Int`. -/
def lineCount (v : View) : Int := (v.buf.lines.length : Int)

/-- Rune count of line `y` of the buffer (0 for out-of-range `y`, which no
claim exercises). -/
def Buffer.lineLen (b : Buffer) (y : Int) : Int :=
  ((b.lines.getD y.toNat "").length : Int)

/-- Modelled from the spec: visual-column accumulator — expands each tab
to the next multiple of `tabSize` from the current visual position, other
characters advance by one (Cursor.GetVisualX of cursor.go is not under
src/). -/
def visualXAux : List Char → Nat → Nat
  | [], acc => acc
  | c :: rest, acc =>
    if c = '\t' then visualXAux rest (acc + (tabSize - acc % tabSize))
    else visualXAux rest (acc + 1)

/-- Modelled from the spec: the visual column of logical column `x` on
line `y` — a pure function of the line content, the column and the tab
size. -/
def Buffer.visualXAt (b : Buffer) (x y : Int) : Int :=
  (visualXAux ((b.lines.getD y.toNat "").toList.take x.toNat) 0 : Int)

/-- Modelled from the spec: `v.cursor.GetVisualX()` (cursor.go is not
under src/) — the cursor's tab-expanded visual column. -/
def View.getVisualX (v : View) : Int :=
  v.buf.visualXAt v.cursor.x v.cursor.y

-- ### Viewport operations, translated from view.go

/-- Go `UpdateLines(start, end)` (view.go): sets `updateLines` to
`[start, end+1]`. -/
def View.updateLinesSet (v : View) (s e : Int) : View :=
  { v with updateLines := (s, e + 1) }

/-- Go `Resize(w, h)` (view.go): reserves one row for the command line and
one for the statusline and recomputes the effective text area from the
percentages. Go computes the sizes via float32 multiplication; at the
values exercised here (percent = 100, small dimensions) that float
computation is exact and coincides with truncating integer division,
which this model uses. -/
def View.resize (v : View) (w h : Int) : View :=
  let h := h - 1
  { v with
    width := Int.tdiv (w * v.widthPercent) 100,
    height := Int.tdiv (h * v.heightPercent) 100 - 1 }

/-- Go `ScrollUp(n)` (view.go): scroll up by `n`, or by 1 if that would
overflow the top. -/
def View.scrollUp (v : View) (n : Int) : View :=
  if v.topline - n ≥ 0 then { v with topline := v.topline - n }
  else if v.topline > 0 then { v with topline := v.topline - 1 }
  else v

/-- Go `ScrollDown(n)` (view.go): scroll down by `n`, or by 1 if that would
overflow the bottom. -/
def View.scrollDown (v : View) (n : Int) : View :=
  if v.topline + n ≤ lineCount v - v.height then { v with topline := v.topline + n }
  else if v.topline < lineCount v - v.height then { v with topline := v.topline + 1 }
  else v

/-- Go `PageUp()` (view.go). -/
def View.pageUp (v : View) : View :=
  if v.topline > v.height then v.scrollUp v.height
  else { v with topline := 0 }

/-- Go `PageDown()` (view.go). -/
def View.pageDown (v : View) : View :=
  if lineCount v - (v.topline + v.height) > v.height then v.scrollDown v.height
  else if lineCount v ≥ v.height then { v with topline := lineCount v - v.height }
  else v

/-- Go `HalfPageUp()` (view.go). -/
def View.halfPageUp (v : View) : View :=
  if v.topline > Int.tdiv v.height 2 then v.scrollUp (Int.tdiv v.height 2)
  else { v with topline := 0 }

/-- Go `HalfPageDown()` (view.go). -/
def View.halfPageDown (v : View) : View :=
  if lineCount v - (v.topline + v.height) > Int.tdiv v.height 2 then
    v.scrollDown (Int.tdiv v.height 2)
  else if lineCount v ≥ v.height then { v with topline := lineCount v - v.height }
  else v

/-- Go `Relocate()` (view.go): the four sequential edge corrections, with the
returned bool accumulating whether any correction fired. -/
def View.relocate (v : View) : View × Bool :=
  let cy := v.cursor.y
  let t1 := if cy < v.topline then cy else v.topline
  let r1 := decide (cy < v.topline)
  let t2 := if cy > t1 + v.height - 1 then cy - v.height + 1 else t1
  let r2 := r1 || decide (cy > t1 + v.height - 1)
  let cx := v.getVisualX
  let l1 := if cx < v.leftCol then cx else v.leftCol
  let r3 := r2 || decide (cx < v.leftCol)
  let l2 := if cx + v.lineNumOffset + 1 > l1 + v.width then cx - v.width + v.lineNumOffset + 1
            else l1
  let r4 := r3 || decide (cx + v.lineNumOffset + 1 > l1 + v.width)
  ({ v with topline := t2, leftCol := l2 }, r4)

-- ### Buffer/cursor operations modelled from the spec (cursor.go and
-- buffer.go are not under src/)

/-- Modelled from the spec: the whole document content, lines joined by
newlines; absolute offsets count each newline as one character. -/
def Buffer.content (b : Buffer) : String := String.intercalate "\n" b.lines

/-- Modelled from the spec: rebuild the line sequence from joined
content. -/
def Buffer.ofContent (s : String) : Buffer := ⟨s.splitOn "\n"⟩

/-- Modelled from the spec: the document length in characters. -/
def Buffer.len (b : Buffer) : Int := (b.content.length : Int)

/-- Modelled from the spec: `ToCharPos(x, y)` — the absolute offset of
position `(x, y)`, counting one character per newline. -/
def Buffer.charPos (b : Buffer) (x y : Int) : Int :=
  Int.ofNat (((b.lines.take y.toNat).map (fun l => l.length + 1)).sum) + x

/-- Modelled from the spec: `v.cursor.Loc()` — the cursor's absolute
offset. -/
def View.cursorLoc (v : View) : Int := v.buf.charPos v.cursor.x v.cursor.y

/-- Modelled from the spec: walk the lines to recover `(x, y)` from an
absolute offset. -/
def posOfOffAux : List String → Nat → Nat → Int × Int
  | [], off, y => ((off : Int), (y : Int))
  | l :: rest, off, y =>
    if off ≤ l.length then ((off : Int), (y : Int))
    else posOfOffAux rest (off - l.length - 1) (y + 1)

/-- Modelled from the spec: the `(x, y)` position of an offset. -/
def Buffer.posOfOff (b : Buffer) (off : Int) : Int × Int :=
  posOfOffAux b.lines off.toNat 0

/-- Modelled from the spec: `SetLoc(offset)` — clamps the offset to
`[0, length]` and recomputes the cursor's `(line, column)`. -/
def View.setLoc (v : View) (off : Int) : View :=
  let off := max 0 (min off v.buf.len)
  let p := v.buf.posOfOff off
  { v with cursor := { v.cursor with x := p.1, y := p.2 } }

/-- Modelled from the spec: `HasSelection()` — the selection is nonempty
iff its two bounds differ. -/
def View.hasSelection (v : View) : Bool :=
  v.cursor.curSelection.1 ≠ v.cursor.curSelection.2

/-- Modelled from the spec: `GetSelection()` — the text between the
selection bounds, taken as `(min, max)`. -/
def View.getSelection (v : View) : String :=
  let a := min v.cursor.curSelection.1 v.cursor.curSelection.2
  let b := max v.cursor.curSelection.1 v.cursor.curSelection.2
  String.mk ((v.buf.content.toList.take b.toNat).drop a.toNat)

/-- Modelled from the spec: `DeleteSelection()` — removes the
`(min, max)` range and collapses the cursor to the range start. The undo
transaction it records is not modelled: no claim reads the edit log. -/
def View.deleteSelection (v : View) : View :=
  let a := min v.cursor.curSelection.1 v.cursor.curSelection.2
  let b := max v.cursor.curSelection.1 v.cursor.curSelection.2
  let s := v.buf.content.toList
  let v1 := { v with buf := Buffer.ofContent (String.mk (s.take a.toNat ++ s.drop b.toNat)) }
  v1.setLoc a

/-- Modelled from the spec: `ResetSelection()` — collapses the selection
anchor to the active end. -/
def View.resetSelection (v : View) : View :=
  { v with cursor :=
      { v.cursor with
        curSelection := (v.cursor.curSelection.2, v.cursor.curSelection.2) } }

/-- Modelled from the spec: `eh.Insert(offset, text)` — inserts the text
at the clamped offset. The undo transaction it records is not modelled:
no claim reads the edit log. -/
def View.ehInsert (v : View) (off : Int) (text : String) : View :=
  let o := (max 0 (min off v.buf.len)).toNat
  let s := v.buf.content.toList
  { v with buf := Buffer.ofContent (String.mk (s.take o ++ text.toList ++ s.drop o)) }

-- ### Clipboard operations, translated from view.go

/-- Go `Copy()` (view.go), parametrized by whether the external clipboard
collaborator reports itself unsupported. The result carries the new view,
the text written to the system clipboard (if any) and the status messages
surfaced. -/
def View.copy (v : View) (clipboardUnsupported : Bool) :
    View × Option String × List String :=
  if v.hasSelection then
    if !clipboardUnsupported then (v, some v.getSelection, [])
    else (v, none, ["Clipboard is not supported on your system"])
  else (v, none, [])

/-- Go `Cut()` (view.go): copy the selection to the clipboard, then delete
it and reset the selection. -/
def View.cut (v : View) (clipboardUnsupported : Bool) :
    View × Option String × List String :=
  if v.hasSelection then
    if !clipboardUnsupported then
      let written := v.getSelection
      let v1 := v.deleteSelection
      let v2 := v1.resetSelection
      (v2, some written, [])
    else (v, none, ["Clipboard is not supported on your system"])
  else (v, none, [])

/-- Go `Paste()` (view.go): delete the selection if any, then insert the
clipboard text at the cursor and move the cursor past it. `clip` is the
text the external clipboard collaborator returns from `ReadAll`. -/
def View.paste (v : View) (clipboardUnsupported : Bool) (clip : String) :
    View × List String :=
  if !clipboardUnsupported then
    let v1 := if v.hasSelection then (v.deleteSelection).resetSelection else v
    let l := v1.cursorLoc
    let v2 := v1.ehInsert l clip
    let v3 := v2.setLoc (l + (clip.length : Int))
    (v3, [])
  else (v, ["Clipboard is not supported on your system"])

-- ### Mouse-click selection machinery

/-- Modelled from the spec: the characters making up a word, for word
selection. -/
def isWordChar (c : Char) : Bool := c.isAlphanum || c = '_'

/-- Modelled from the spec: `SelectWord()` (cursor.go is not under src/)
— the offset range of the maximal run of word characters containing
column `x` of line `y`. -/
def selectWordSel (b : Buffer) (x y : Int) : Int × Int :=
  let cs := (b.lines.getD y.toNat "").toList
  let xn := x.toNat
  let a := xn - ((cs.take xn).reverse.takeWhile isWordChar).length
  let e := xn + ((cs.drop xn).takeWhile isWordChar).length
  (b.charPos (Int.ofNat a) y, b.charPos (Int.ofNat e) y)

/-- Modelled from the spec: `SelectLine()` (cursor.go is not under src/)
— the offset range of the whole line `y`. -/
def selectLineSel (b : Buffer) (y : Int) : Int × Int :=
  (b.charPos 0 y, b.charPos (b.lineLen y) y)

/-- Modelled from the spec: `AddWordToSelection()` — during a drag, keep
the anchor edge of the selection and move the far edge to the word
boundary containing the drag point. -/
def View.addWordToSelection (v : View) : View :=
  let w := selectWordSel v.buf v.cursor.x v.cursor.y
  let anchor := v.cursor.curSelection.1
  let far := if v.cursorLoc ≥ anchor then w.2 else w.1
  { v with cursor := { v.cursor with curSelection := (anchor, far) } }

/-- Modelled from the spec: `AddLineToSelection()` — during a drag, keep
the anchor edge of the selection and move the far edge to the line
boundary containing the drag point. -/
def View.addLineToSelection (v : View) : View :=
  let l := selectLineSel v.buf v.cursor.y
  let anchor := v.cursor.curSelection.1
  let far := if v.cursorLoc ≥ anchor then l.2 else l.1
  { v with cursor := { v.cursor with curSelection := (anchor, far) } }

/-- Modelled from the spec: inverse tab expansion — walk the line
accumulating rendered widths and return the logical column whose
rendered span contains the target visual column; a click inside a tab's
rendered width resolves to the tab character itself. -/
def charPosAux : List Char → Nat → Nat → Nat → Nat
  | [], _, _, i => i
  | c :: rest, target, acc, i =>
    let w := if c = '\t' then tabSize - acc % tabSize else 1
    if target < acc + w then i else charPosAux rest target (acc + w) (i + 1)

/-- Modelled from the spec: `GetCharPosInLine(y, visualX)` (cursor.go is
not under src/). -/
def View.getCharPosInLine (v : View) (y x : Int) : Int :=
  Int.ofNat (charPosAux ((v.buf.lines.getD y.toNat "").toList) x.toNat 0 0)

/-- Go `MoveToMouseClick(x, y)` (view.go): scroll one line if the click is
below the viewport, clamp the click to the document, resolve the visual
column through the (spec-modelled) inverse tab expansion, and move the
cursor there. -/
def View.moveToMouseClick (v : View) (x y : Int) : View :=
  let scrolled := y - v.topline > v.height - 1
  let v1 := if scrolled then v.scrollDown 1 else v
  let y1 := if scrolled then v1.height + v1.topline - 1 else y
  let y2 := if y1 ≥ lineCount v1 then lineCount v1 - 1 else y1
  let y3 := if y2 < 0 then 0 else y2
  let x1 := if x < 0 then 0 else x
  let x2 := v1.getCharPosInLine y3 x1
  let x3 := if x2 > v1.buf.lineLen y3 then v1.buf.lineLen y3 else x2
  let c := { v1.cursor with x := x3, y := y3 }
  { v1 with cursor := { c with lastVisualX := v1.buf.visualXAt x3 y3 } }

/-- The `Button1` click/drag dispatch of `HandleEvent` (view.go), acting
on the view after `MoveToMouseClick`; `origX`/`origY` are the cursor
coordinates from before the move, `threshold` stands for the
`doubleClickThreshold` global and `now` for the event's arrival time in
milliseconds (the clock and the threshold global are not under src/). -/
def View.button1Switch (v1 : View) (origX origY threshold now : Int) : View :=
  if v1.mouseReleased then
    if now - v1.lastClickTime < threshold ∧ origX = v1.cursor.x ∧ origY = v1.cursor.y then
      if v1.doubleClick then
        { v1 with lastClickTime := now, tripleClick := true, doubleClick := false,
                  cursor := { v1.cursor with
                    curSelection := selectLineSel v1.buf v1.cursor.y } }
      else
        { v1 with lastClickTime := now, doubleClick := true, tripleClick := false,
                  cursor := { v1.cursor with
                    curSelection := selectWordSel v1.buf v1.cursor.x v1.cursor.y } }
    else
      { v1 with doubleClick := false, tripleClick := false, lastClickTime := now,
                cursor := { v1.cursor with
                  curSelection := (v1.cursorLoc, v1.cursorLoc) } }
  else
    if v1.tripleClick then v1.addLineToSelection
    else if v1.doubleClick then v1.addWordToSelection
    else { v1 with cursor := { v1.cursor with
             curSelection := (v1.cursor.curSelection.1, v1.cursorLoc) } }

/-- Go `HandleEvent` for a left-button-down mouse event (view.go): the
initial `UpdateLines(-2, 0)`, the screen-to-buffer coordinate
adjustment, `MoveToMouseClick`, the `Button1` dispatch, clearing
`mouseReleased`, and the final `Relocate()`. -/
def View.handleButton1Event (v : View) (threshold now ex ey : Int) : View :=
  let v0 := v.updateLinesSet (-2) 0
  let x := ex - (v0.lineNumOffset - v0.leftCol) - 1
  let y := ey + v0.topline - 1
  let v1 := v0.moveToMouseClick x y
  let v2 := v1.button1Switch v0.cursor.x v0.cursor.y threshold now
  let v3 := { v2 with mouseReleased := false }
  (v3.relocate).1

-- ### Dirty-range policy of HandleEvent, translated from view.go

/-- The structural-edit key events dispatched by `HandleEvent`. -/
inductive EditKind
  | enter | space | backspace | tab | runeKey | undo | redo | pasteKey
  deriving Repr, DecidableEq

/-- The value of `v.updateLines` after `HandleEvent` processes a
structural edit, translated branch by branch from the key switch in
view.go. `hasSel` says whether a selection existed when the event
arrived, `locPos` whether the cursor offset was positive (the backspace
guard), `cy` is the cursor's line at the moment of the `UpdateLines`
call, and `top`/`h` the viewport. `HandleEvent` first runs
`UpdateLines(-2, 0)`, so a branch that calls `UpdateLines` itself
overwrites `(-2, 1)`. -/
def dirtyRangeAfter (k : EditKind) (hasSel locPos : Bool) (cy top h : Int) :
    Int × Int :=
  match k with
  | .enter => (top, top + h + 1)
  | .space => (cy, cy + 1)
  | .backspace =>
    if hasSel then (top, top + h + 1)
    else if locPos then (top, top + h + 1)
    else (-2, 0 + 1)
  | .tab => (cy, cy + 1)
  | .runeKey => if hasSel then (top, top + h + 1) else (cy, cy + 1)
  | .undo => (top, top + h + 1)
  | .redo => (top, top + h + 1)
  | .pasteKey => (top, top + h + 1)

/-- The invariant claimed for the viewport:
`topLine ∈ [0, max(0, lineCount - height)]`. -/
def validTop (v : View) : Prop :=
  0 ≤ v.topline ∧ v.topline ≤ max 0 (lineCount v - v.height)

instance (v : View) : Decidable (validTop v) := by
  unfold validTop; infer_instance

-- ### Concrete sample states used by witnesses and counterexamples

/-- A concrete 5-line view used by several witnesses. -/
def sampleView : View :=
  { cursor := { x := 0, y := 0, lastVisualX := 0, curSelection := (0, 0) }
    topline := 0, leftCol := 0, widthPercent := 100, heightPercent := 100
    width := 10, height := 2, lineNumOffset := 2
    buf := ⟨["alpha", "bravo", "charlie", "delta", "echo"]⟩
    mouseReleased := true, lastClickTime := 0, doubleClick := false
    tripleClick := false, updateLines := (0, 0) }

/-- The view `sampleView` scrolled one line down. -/
def sampleView2 : View := { sampleView with topline := 1 }

/-- A 10-line view of height 5 scrolled to the bottom bound, used by the
C3 counterexample. -/
def tallView : View :=
  { sampleView with
    buf := ⟨["l0", "l1", "l2", "l3", "l4", "l5", "l6", "l7", "l8", "l9"]⟩
    height := 5, topline := 5 }

/-- A view with a wide gutter (`lineNumOffset = 5`) scrolled right to
`leftCol = 3`, cursor at column 1 of a one-line buffer; used by the C1
counterexample and the C1 witness. -/
def gutterView : View :=
  { sampleView with
    buf := ⟨["abcdef"]⟩
    cursor := { x := 1, y := 0, lastVisualX := 0, curSelection := (0, 0) }
    topline := 0, height := 1, leftCol := 3, lineNumOffset := 5, width := 10 }

/-- A view with degenerate geometry (height 0, width 1) in which Relocate
reports a change while leaving `topline` and `leftCol` as they were; used
by the C9 counterexample. -/
def degenerateView : View :=
  { sampleView with
    buf := ⟨[""]⟩
    cursor := { x := 0, y := 4, lastVisualX := 0, curSelection := (0, 0) }
    topline := 5, height := 0, leftCol := 0, width := 1, lineNumOffset := 0 }

/-- A released-mouse view over "hello world"/"foo bar" with the cursor on
the word "world"; used by the C5 witness. -/
def clickView : View :=
  { sampleView with
    buf := ⟨["hello world", "foo bar"]⟩
    cursor := { x := 7, y := 0, lastVisualX := 0, curSelection := (7, 7) }
    height := 5, width := 20, lineNumOffset := 0 }

/-- The view `sampleView` with the first three characters selected; used by the C8
witness. -/
def selView : View :=
  { sampleView with
    cursor := { x := 3, y := 0, lastVisualX := 0, curSelection := (0, 3) } }

-- ### Claim theorems

/-- C2: on a document of `L` lines with viewport height `H ≤ L`, starting
from `topline ∈ [0, L-H]`, `ScrollDown(n)` with `n ≥ 0` never sets
`topline` above `L - H` and never decreases it. -/
theorem scrollDown_bounded (v : View) (n : Int)
    (hLH : v.height ≤ lineCount v)
    (h0 : 0 ≤ v.topline) (h1 : v.topline ≤ lineCount v - v.height)
    (hn : 0 ≤ n) :
    (v.scrollDown n).topline ≤ lineCount v - v.height ∧
      v.topline ≤ (v.scrollDown n).topline := by
  unfold View.scrollDown
  split_ifs <;> constructor <;> first | omega | (simp; try omega)

/-- C2 witness: `scrollDown_bounded` applied to the concrete 5-line,
height-2 view with an oversized step. -/
theorem scrollDown_bounded_witness :
    (sampleView.scrollDown 10).topline ≤ lineCount sampleView - sampleView.height ∧
      sampleView.topline ≤ (sampleView.scrollDown 10).topline :=
  scrollDown_bounded sampleView 10 (by decide) (by decide) (by decide) (by decide)

/-- C6: for `n ≥ 1`, if `ScrollUp(n)` would overshoot the top while
`topline > 0` it decreases `topline` by exactly 1, and if `ScrollDown(n)`
would overshoot the bottom while `topline < lineCount - height` it
increases `topline` by exactly 1. -/
theorem scroll_overshoot_by_one (v : View) (n : Int) (hn : 1 ≤ n) :
    (v.topline - n < 0 → 0 < v.topline → (v.scrollUp n).topline = v.topline - 1) ∧
    (v.topline + n > lineCount v - v.height → v.topline < lineCount v - v.height →
      (v.scrollDown n).topline = v.topline + 1) := by
  unfold View.scrollUp View.scrollDown
  refine ⟨fun h1 h2 => ?_, fun h1 h2 => ?_⟩ <;> split_ifs <;>
    first | omega | (simp; try omega)

/-- C6 witness: `scroll_overshoot_by_one` at `topline = 1`, `n = 5` on the
5-line, height-2 view: both overshooting steps advance by exactly 1. -/
theorem scroll_overshoot_by_one_witness :
    (sampleView2.scrollUp 5).topline = sampleView2.topline - 1 ∧
      (sampleView2.scrollDown 5).topline = sampleView2.topline + 1 :=
  ⟨(scroll_overshoot_by_one sampleView2 5 (by decide)).1 (by decide) (by decide),
   (scroll_overshoot_by_one sampleView2 5 (by decide)).2 (by decide) (by decide)⟩

/-- C7: when the lines remaining below the viewport are fewer than the
step and `lineCount ≥ height`, `PageDown` and `HalfPageDown` snap
`topline` to exactly `lineCount - height`; and when the document is
shorter than the viewport, `PageDown` leaves `topline` unchanged. -/
theorem pageDown_clamp (v : View) :
    (lineCount v - (v.topline + v.height) < v.height → v.height ≤ lineCount v →
      v.pageDown.topline = lineCount v - v.height) ∧
    (lineCount v - (v.topline + v.height) < Int.tdiv v.height 2 → v.height ≤ lineCount v →
      v.halfPageDown.topline = lineCount v - v.height) ∧
    (0 ≤ v.topline → 0 ≤ v.height → lineCount v < v.height →
      v.pageDown.topline = v.topline) := by
  unfold View.pageDown View.halfPageDown View.scrollDown
  refine ⟨fun h1 h2 => ?_, fun h1 h2 => ?_, fun h1 h2 h3 => ?_⟩ <;>
    split_ifs <;> first | omega | (simp; try omega)

/-- C7 witness: `pageDown_clamp` on the 5-line, height-2 view scrolled to
`topline = 2` (PageDown snaps to 3) and `topline = 3` (HalfPageDown), and
on a height-10 view over the same 5-line document (no-op case). -/
theorem pageDown_clamp_witness :
    (({ sampleView with topline := 2 } : View).pageDown).topline =
        lineCount sampleView - sampleView.height ∧
      (({ sampleView with topline := 3 } : View).halfPageDown).topline =
        lineCount sampleView - sampleView.height ∧
      (({ sampleView with height := 10 } : View).pageDown).topline =
        ({ sampleView with height := 10 } : View).topline :=
  ⟨(pageDown_clamp { sampleView with topline := 2 }).1 (by decide) (by decide),
   (pageDown_clamp { sampleView with topline := 3 }).2.1 (by decide) (by decide),
   (pageDown_clamp { sampleView with height := 10 }).2.2 (by decide) (by decide) (by decide)⟩

/-- C1 counterexample: in `gutterView` every hypothesis of the claim
holds and the cursor lies within both claimed ranges (`cy ∈
[topLine, topLine+height)` and `visualX + gutter ∈ [leftCol,
leftCol+width)`), yet Relocate changes `leftCol` (from 3 to 1), because
the code's lower-edge test compares the bare visual column, not the
gutter-shifted one, against `leftCol`. -/
theorem relocate_moves_leftCol_despite_in_range :
    (1 ≤ gutterView.height ∧
      0 ≤ gutterView.cursor.y ∧
      gutterView.cursor.y ≤ lineCount gutterView - 1 ∧
      gutterView.lineNumOffset + 1 < gutterView.width ∧
      gutterView.topline ≤ gutterView.cursor.y ∧
      gutterView.cursor.y < gutterView.topline + gutterView.height ∧
      gutterView.leftCol ≤ gutterView.getVisualX + gutterView.lineNumOffset ∧
      gutterView.getVisualX + gutterView.lineNumOffset <
        gutterView.leftCol + gutterView.width) ∧
    (gutterView.relocate).1.leftCol ≠ gutterView.leftCol := by decide

/-- C1 amended: for a view with `height ≥ 1`, cursor line within the
document, nonnegative gutter and `width > gutter + 1`, after `Relocate()`
the cursor's line lies within `[topLine, topLine+height)` and its visual
column plus gutter lies within `[leftColumn, leftColumn+width)`; and if
the cursor's line already lay within `[topLine, topLine+height)` and its
visual column (unshifted) lay within `[leftColumn,
leftColumn+width-gutter-1)`, Relocate leaves `topLine` and `leftColumn`
unchanged. -/
theorem relocate_brings_cursor_into_view (v : View)
    (hH : 1 ≤ v.height) (hcy0 : 0 ≤ v.cursor.y)
    (hcyL : v.cursor.y ≤ lineCount v - 1)
    (hg : 0 ≤ v.lineNumOffset) (hw : v.lineNumOffset + 1 < v.width) :
    ((v.relocate).1.topline ≤ v.cursor.y ∧
      v.cursor.y < (v.relocate).1.topline + v.height ∧
      (v.relocate).1.leftCol ≤ v.getVisualX + v.lineNumOffset ∧
      v.getVisualX + v.lineNumOffset < (v.relocate).1.leftCol + v.width) ∧
    ((v.topline ≤ v.cursor.y ∧ v.cursor.y < v.topline + v.height ∧
      v.leftCol ≤ v.getVisualX ∧
      v.getVisualX + v.lineNumOffset + 1 ≤ v.leftCol + v.width) →
      (v.relocate).1.topline = v.topline ∧ (v.relocate).1.leftCol = v.leftCol) := by
  simp only [View.relocate]
  split_ifs <;> refine ⟨⟨?_, ?_, ?_, ?_⟩, fun hin => ⟨?_, ?_⟩⟩ <;> omega

/-- C1 witness: `relocate_brings_cursor_into_view` applied to the
concrete `gutterView`. -/
theorem relocate_brings_cursor_into_view_witness :
    (((gutterView.relocate).1.topline ≤ gutterView.cursor.y ∧
      gutterView.cursor.y < (gutterView.relocate).1.topline + gutterView.height ∧
      (gutterView.relocate).1.leftCol ≤
        gutterView.getVisualX + gutterView.lineNumOffset ∧
      gutterView.getVisualX + gutterView.lineNumOffset <
        (gutterView.relocate).1.leftCol + gutterView.width) ∧
    ((gutterView.topline ≤ gutterView.cursor.y ∧
      gutterView.cursor.y < gutterView.topline + gutterView.height ∧
      gutterView.leftCol ≤ gutterView.getVisualX ∧
      gutterView.getVisualX + gutterView.lineNumOffset + 1 ≤
        gutterView.leftCol + gutterView.width) →
      (gutterView.relocate).1.topline = gutterView.topline ∧
        (gutterView.relocate).1.leftCol = gutterView.leftCol)) :=
  relocate_brings_cursor_into_view gutterView (by decide) (by decide) (by decide)
    (by decide) (by decide)

/-- C9 counterexample: on `degenerateView` (height 0, reachable through
`Resize` on a two-row terminal) Relocate returns `true` although both
`topline` and `leftCol` end up exactly as they started: the two vertical
corrections fire in sequence and cancel out. -/
theorem relocate_ret_true_but_unchanged :
    (degenerateView.relocate).2 = true ∧
      (degenerateView.relocate).1.topline = degenerateView.topline ∧
      (degenerateView.relocate).1.leftCol = degenerateView.leftCol := by decide

/-- C9 amended: provided `height ≥ 1` and `width ≥ gutter + 1` (so the
two corrections on one axis cannot both fire), `Relocate()` returns
`true` iff it changed `topLine` or `leftColumn`; and when the cursor is
already fully visible in the code's sense (`topLine ≤ cy <
topLine+height`, `leftCol ≤ visualX`, `visualX + gutter + 1 ≤ leftCol +
width`) it returns `false` and changes neither. -/
theorem relocate_ret_iff_changed (v : View)
    (hH : 1 ≤ v.height) (hw : v.lineNumOffset + 1 ≤ v.width) :
    ((v.relocate).2 = true ↔
      ((v.relocate).1.topline ≠ v.topline ∨ (v.relocate).1.leftCol ≠ v.leftCol)) ∧
    ((v.topline ≤ v.cursor.y ∧ v.cursor.y < v.topline + v.height ∧
      v.leftCol ≤ v.getVisualX ∧
      v.getVisualX + v.lineNumOffset + 1 ≤ v.leftCol + v.width) →
      (v.relocate).2 = false ∧ (v.relocate).1.topline = v.topline ∧
        (v.relocate).1.leftCol = v.leftCol) := by
  simp only [View.relocate]
  refine ⟨?_, fun hin => ?_⟩ <;> split_ifs <;>
    first | omega | (simp_all; try omega)

/-- C9 witness: `relocate_ret_iff_changed` applied to the concrete
`sampleView`. -/
theorem relocate_ret_iff_changed_witness :
    (((sampleView.relocate).2 = true ↔
      ((sampleView.relocate).1.topline ≠ sampleView.topline ∨
        (sampleView.relocate).1.leftCol ≠ sampleView.leftCol)) ∧
    ((sampleView.topline ≤ sampleView.cursor.y ∧
      sampleView.cursor.y < sampleView.topline + sampleView.height ∧
      sampleView.leftCol ≤ sampleView.getVisualX ∧
      sampleView.getVisualX + sampleView.lineNumOffset + 1 ≤
        sampleView.leftCol + sampleView.width) →
      (sampleView.relocate).2 = false ∧
        (sampleView.relocate).1.topline = sampleView.topline ∧
        (sampleView.relocate).1.leftCol = sampleView.leftCol)) :=
  relocate_ret_iff_changed sampleView (by decide) (by decide)

/-- C3 counterexample: `tallView` satisfies the invariant `topLine ∈ [0,
max(0, lineCount-height)]`, but `Resize(80, 10)` (which grows the
effective height from 5 to 8 and leaves `topLine` untouched) does not
restore it: afterwards `topLine = 5 > max(0, 10-8) = 2`. -/
theorem resize_breaks_topline_invariant :
    validTop tallView ∧ ¬ validTop (tallView.resize 80 10) := by decide

/-- C3 amended: the invariant `topLine ∈ [0, max(0, lineCount-height)]`
is preserved by `ScrollUp(n)` and `ScrollDown(n)` for `n ≥ 0`, by
`PageUp`, `PageDown`, `HalfPageUp` and `HalfPageDown` for `height ≥ 0`,
and by `Relocate` when the cursor's line lies inside the document;
`Resize` leaves `topLine` unchanged and can therefore violate the bound
when the effective height grows. -/
theorem topline_invariant_preserved (v : View) (n : Int) (hn : 0 ≤ n)
    (hv : validTop v) (hH : 0 ≤ v.height)
    (hcy0 : 0 ≤ v.cursor.y) (hcyL : v.cursor.y ≤ lineCount v - 1) :
    validTop (v.scrollUp n) ∧ validTop (v.scrollDown n) ∧
      validTop v.pageUp ∧ validTop v.pageDown ∧
      validTop v.halfPageUp ∧ validTop v.halfPageDown ∧
      validTop (v.relocate).1 := by
  have hq : 0 ≤ Int.tdiv v.height 2 := Int.tdiv_nonneg hH (by norm_num)
  obtain ⟨hv0, hv1⟩ := hv
  refine ⟨?_, ?_, ?_, ?_, ?_, ?_, ?_⟩ <;>
    simp only [View.scrollUp, View.scrollDown, View.pageUp, View.pageDown,
      View.halfPageUp, View.halfPageDown, View.relocate, validTop, lineCount] at * <;>
    split_ifs <;> first | omega | (simp_all; try omega)

/-- C3 witness: `topline_invariant_preserved` applied to the concrete
10-line view `tallView` with step 3. -/
theorem topline_invariant_preserved_witness :
    validTop (tallView.scrollUp 3) ∧ validTop (tallView.scrollDown 3) ∧
      validTop tallView.pageUp ∧ validTop tallView.pageDown ∧
      validTop tallView.halfPageUp ∧ validTop tallView.halfPageDown ∧
      validTop (tallView.relocate).1 :=
  topline_invariant_preserved tallView 3 (by decide) (by decide) (by decide)
    (by decide) (by decide)

/-- C8: when the clipboard is unsupported, `Cut` (with a selection) and
`Paste` surface the status message and abort before any mutation: the
view — buffer content, cursor position and selection — is returned
exactly unchanged and nothing is written to the clipboard. -/
theorem cut_paste_abort_when_clipboard_unsupported (v : View) (clip : String)
    (hs : v.hasSelection = true) :
    v.cut true = (v, none, ["Clipboard is not supported on your system"]) ∧
      v.paste true clip = (v, ["Clipboard is not supported on your system"]) := by
  unfold View.cut View.paste
  simp [hs]

/-- C8 witness: `cut_paste_abort_when_clipboard_unsupported` on the
concrete view `selView`, whose selection is nonempty. -/
theorem cut_paste_abort_witness :
    selView.cut true =
        (selView, none, ["Clipboard is not supported on your system"]) ∧
      selView.paste true "xyz" =
        (selView, ["Clipboard is not supported on your system"]) :=
  cut_paste_abort_when_clipboard_unsupported selView "xyz" (by decide)

/-- C10: with no selection, `Copy` and `Cut` are complete no-ops — the
view is unchanged, nothing is written to the clipboard and no message is
produced — for either value of the clipboard-unsupported flag. -/
theorem copy_cut_noop_without_selection (v : View) (u : Bool)
    (hs : v.hasSelection = false) :
    v.copy u = (v, none, []) ∧ v.cut u = (v, none, []) := by
  unfold View.copy View.cut
  simp [hs]

/-- C10 witness: `copy_cut_noop_without_selection` on the concrete
`sampleView` (collapsed selection) with the clipboard unsupported. -/
theorem copy_cut_noop_witness :
    sampleView.copy true = (sampleView, none, []) ∧
      sampleView.cut true = (sampleView, none, []) :=
  copy_cut_noop_without_selection sampleView true (by decide)

/-- C4 counterexample: a space insertion with the cursor on line 0 while
the viewport shows lines starting at 5 (height 3) marks only line 0 for
re-highlighting — `[0, 1)` in half-open form — not the visible viewport
`[5, 9)`, refuting the claim that every structural edit widens the dirty
range to the viewport. -/
theorem space_marks_only_touched_line :
    dirtyRangeAfter .space false true 0 5 3 = (0, 1) ∧
      dirtyRangeAfter .space false true 0 5 3 ≠ (5, 5 + 3 + 1) := by decide

/-- C4 amended: newline, deletion (with a selection or at a positive
offset), undo, redo and paste widen the dirty range to the whole visible
viewport `[topLine, topLine+height]`, as does a rune insertion that
replaces a selection; but the single-character insertions — space, tab,
and a printable rune with no selection — mark only the cursor's line. -/
theorem dirty_range_policy (hasSel locPos : Bool) (cy top h : Int) :
    dirtyRangeAfter .enter hasSel locPos cy top h = (top, top + h + 1) ∧
      dirtyRangeAfter .undo hasSel locPos cy top h = (top, top + h + 1) ∧
      dirtyRangeAfter .redo hasSel locPos cy top h = (top, top + h + 1) ∧
      dirtyRangeAfter .pasteKey hasSel locPos cy top h = (top, top + h + 1) ∧
      (hasSel = true ∨ locPos = true →
        dirtyRangeAfter .backspace hasSel locPos cy top h = (top, top + h + 1)) ∧
      (hasSel = true →
        dirtyRangeAfter .runeKey hasSel locPos cy top h = (top, top + h + 1)) ∧
      dirtyRangeAfter .space hasSel locPos cy top h = (cy, cy + 1) ∧
      dirtyRangeAfter .tab hasSel locPos cy top h = (cy, cy + 1) ∧
      (hasSel = false →
        dirtyRangeAfter .runeKey hasSel locPos cy top h = (cy, cy + 1)) := by
  cases hasSel <;> cases locPos <;> simp [dirtyRangeAfter]

/-- C4 witness: `dirty_range_policy` evaluated at concrete inputs — the
widening cases yield the viewport range `(5, 9)` and the
touched-line cases yield `(0, 1)`. -/
theorem dirty_range_policy_witness :
    dirtyRangeAfter .backspace true true 0 5 3 = (5, 9) ∧
      dirtyRangeAfter .runeKey true true 0 5 3 = (5, 9) ∧
      dirtyRangeAfter .runeKey false true 0 5 3 = (0, 1) ∧
      dirtyRangeAfter .enter false true 0 5 3 = (5, 9) :=
  ⟨(dirty_range_policy true true 0 5 3).2.2.2.2.1 (Or.inl rfl),
   (dirty_range_policy true true 0 5 3).2.2.2.2.2.1 rfl,
   (dirty_range_policy false true 0 5 3).2.2.2.2.2.2.2.2 rfl,
   (dirty_range_policy false true 0 5 3).1⟩

-- ### Helper projection lemmas (shared)

theorem scrollDown_buf (v : View) (n : Int) : (v.scrollDown n).buf = v.buf := by
  unfold View.scrollDown; split_ifs <;> rfl

theorem scrollDown_cursor (v : View) (n : Int) :
    (v.scrollDown n).cursor = v.cursor := by
  unfold View.scrollDown; split_ifs <;> rfl

theorem scrollDown_mouseReleased (v : View) (n : Int) :
    (v.scrollDown n).mouseReleased = v.mouseReleased := by
  unfold View.scrollDown; split_ifs <;> rfl

theorem scrollDown_lastClickTime (v : View) (n : Int) :
    (v.scrollDown n).lastClickTime = v.lastClickTime := by
  unfold View.scrollDown; split_ifs <;> rfl

theorem scrollDown_doubleClick (v : View) (n : Int) :
    (v.scrollDown n).doubleClick = v.doubleClick := by
  unfold View.scrollDown; split_ifs <;> rfl

theorem scrollDown_tripleClick (v : View) (n : Int) :
    (v.scrollDown n).tripleClick = v.tripleClick := by
  unfold View.scrollDown; split_ifs <;> rfl

theorem moveToMouseClick_buf (v : View) (x y : Int) :
    (v.moveToMouseClick x y).buf = v.buf := by
  unfold View.moveToMouseClick
  by_cases h : y - v.topline > v.height - 1 <;> simp [h, scrollDown_buf]

theorem moveToMouseClick_mouseReleased (v : View) (x y : Int) :
    (v.moveToMouseClick x y).mouseReleased = v.mouseReleased := by
  unfold View.moveToMouseClick
  by_cases h : y - v.topline > v.height - 1 <;> simp [h, scrollDown_mouseReleased]

theorem moveToMouseClick_lastClickTime (v : View) (x y : Int) :
    (v.moveToMouseClick x y).lastClickTime = v.lastClickTime := by
  unfold View.moveToMouseClick
  by_cases h : y - v.topline > v.height - 1 <;> simp [h, scrollDown_lastClickTime]

theorem moveToMouseClick_doubleClick (v : View) (x y : Int) :
    (v.moveToMouseClick x y).doubleClick = v.doubleClick := by
  unfold View.moveToMouseClick
  by_cases h : y - v.topline > v.height - 1 <;> simp [h, scrollDown_doubleClick]

theorem moveToMouseClick_tripleClick (v : View) (x y : Int) :
    (v.moveToMouseClick x y).tripleClick = v.tripleClick := by
  unfold View.moveToMouseClick
  by_cases h : y - v.topline > v.height - 1 <;> simp [h, scrollDown_tripleClick]

theorem relocate_fst_cursor (v : View) : ((v.relocate).1).cursor = v.cursor := rfl

theorem relocate_fst_doubleClick (v : View) :
    ((v.relocate).1).doubleClick = v.doubleClick := rfl

theorem relocate_fst_tripleClick (v : View) :
    ((v.relocate).1).tripleClick = v.tripleClick := rfl

/-- C5: the multi-click state machine of the `Button1` handler. With the
mouse in the released state, a left-button-down that resolves to the
same cursor position as before and arrives within the double-click
threshold selects exactly the word containing that position if the
previous click was a single click (`doubleClick` clear), and exactly the
line containing it if the previous click was a double click
(`doubleClick` set); a button-down outside the threshold or at a
different resolved position restarts as a single click with a collapsed
selection at the click position. `v1` is the view after
`MoveToMouseClick` has resolved the click, `res` the final view. -/
theorem multi_click_state_machine (v v1 res : View) (threshold now ex ey : Int)
    (hm : v.mouseReleased = true)
    (hv1 : v1 = (v.updateLinesSet (-2) 0).moveToMouseClick
      (ex - (v.lineNumOffset - v.leftCol) - 1) (ey + v.topline - 1))
    (hres : res = v.handleButton1Event threshold now ex ey) :
    ((now - v.lastClickTime < threshold ∧ v.cursor.x = v1.cursor.x ∧
        v.cursor.y = v1.cursor.y) →
      ((v.doubleClick = false →
         res.cursor.curSelection = selectWordSel v.buf v.cursor.x v.cursor.y ∧
         res.doubleClick = true ∧ res.tripleClick = false) ∧
       (v.doubleClick = true →
         res.cursor.curSelection = selectLineSel v.buf v.cursor.y ∧
         res.tripleClick = true ∧ res.doubleClick = false))) ∧
    (¬(now - v.lastClickTime < threshold ∧ v.cursor.x = v1.cursor.x ∧
        v.cursor.y = v1.cursor.y) →
      res.cursor.curSelection = (v1.cursorLoc, v1.cursorLoc) ∧
      res.doubleClick = false ∧ res.tripleClick = false) := by
  have hmr : v1.mouseReleased = true := by
    rw [hv1, moveToMouseClick_mouseReleased]; exact hm
  have hlct : v1.lastClickTime = v.lastClickTime := by
    rw [hv1, moveToMouseClick_lastClickTime]; rfl
  have hdc : v1.doubleClick = v.doubleClick := by
    rw [hv1, moveToMouseClick_doubleClick]; rfl
  have hbuf : v1.buf = v.buf := by
    rw [hv1, moveToMouseClick_buf]; rfl
  have hres2 : res = (({ (v1.button1Switch v.cursor.x v.cursor.y threshold now) with
      mouseReleased := false }).relocate).1 := by
    rw [hres, hv1]; rfl
  have hcur : res.cursor =
      (v1.button1Switch v.cursor.x v.cursor.y threshold now).cursor := by
    rw [hres2, relocate_fst_cursor]
  have hd : res.doubleClick =
      (v1.button1Switch v.cursor.x v.cursor.y threshold now).doubleClick := by
    rw [hres2, relocate_fst_doubleClick]
  have ht : res.tripleClick =
      (v1.button1Switch v.cursor.x v.cursor.y threshold now).tripleClick := by
    rw [hres2, relocate_fst_tripleClick]
  constructor
  · rintro ⟨h1, h2, h3⟩
    have hc2 : now - v1.lastClickTime < threshold ∧ v.cursor.x = v1.cursor.x ∧
        v.cursor.y = v1.cursor.y := ⟨by rw [hlct]; exact h1, h2, h3⟩
    constructor
    · intro hdcf
      have hdcv : v1.doubleClick = false := hdc.trans hdcf
      have hsw : v1.button1Switch v.cursor.x v.cursor.y threshold now =
          { v1 with lastClickTime := now, doubleClick := true, tripleClick := false,
                    cursor := { v1.cursor with
                      curSelection := selectWordSel v1.buf v1.cursor.x v1.cursor.y } } := by
        simp [View.button1Switch, hmr, hc2, hdcv]
      refine ⟨?_, ?_, ?_⟩
      · rw [hcur, hsw]; simp [hbuf, ← h2, ← h3]
      · rw [hd, hsw]
      · rw [ht, hsw]
    · intro hdct
      have hdcv : v1.doubleClick = true := hdc.trans hdct
      have hsw : v1.button1Switch v.cursor.x v.cursor.y threshold now =
          { v1 with lastClickTime := now, tripleClick := true, doubleClick := false,
                    cursor := { v1.cursor with
                      curSelection := selectLineSel v1.buf v1.cursor.y } } := by
        simp [View.button1Switch, hmr, hc2, hdcv]
      refine ⟨?_, ?_, ?_⟩
      · rw [hcur, hsw]; simp [hbuf, ← h3]
      · rw [ht, hsw]
      · rw [hd, hsw]
  · intro hc
    have hc2 : ¬(now - v1.lastClickTime < threshold ∧ v.cursor.x = v1.cursor.x ∧
        v.cursor.y = v1.cursor.y) := by rw [hlct]; exact hc
    have hsw : v1.button1Switch v.cursor.x v.cursor.y threshold now =
        { v1 with doubleClick := false, tripleClick := false, lastClickTime := now,
                  cursor := { v1.cursor with
                    curSelection := (v1.cursorLoc, v1.cursorLoc) } } := by
      simp [View.button1Switch, hmr, hc2]
    exact ⟨by rw [hcur, hsw], by rw [hd, hsw], by rw [ht, hsw]⟩

/-- C5 witness: `multi_click_state_machine` driven on the concrete
`clickView` (cursor on the word "world", previous click single, mouse
released): a second click resolving to the same position within the
threshold selects the containing word and sets the double-click flag. -/
theorem multi_click_state_machine_witness :
    (clickView.handleButton1Event 400 100 8 1).cursor.curSelection =
        selectWordSel clickView.buf clickView.cursor.x clickView.cursor.y ∧
      (clickView.handleButton1Event 400 100 8 1).doubleClick = true ∧
      (clickView.handleButton1Event 400 100 8 1).tripleClick = false :=
  ((multi_click_state_machine clickView
      ((clickView.updateLinesSet (-2) 0).moveToMouseClick
        (8 - (clickView.lineNumOffset - clickView.leftCol) - 1)
        (1 + clickView.topline - 1))
      (clickView.handleButton1Event 400 100 8 1) 400 100 8 1
      rfl rfl rfl).1 (by decide)).1 rfl

end Micro
